import Mathlib

/-!
Verification development for the music-finder library-search backend.

The definitions below are a shallow embedding of the Python sources:
`backend/search_library/types.py`, `backend/search_library/prompts.py`,
`backend/search_library/search.py` and the enrichment pipeline of
`backend/utils.py`.  External network clients (the LLM text-completion
client, the OpenAI embedding endpoint, the Supabase store, the lyrics and
metadata fetchers) are modelled as function parameters; everything the
repository itself computes is translated directly from the source.
Python exceptions are modelled with `Except String`; a `.error` value
corresponds to an uncaught Python exception carrying its message.
-/

namespace MusicFinder

/-- A value held in the dynamically-typed `reasoning` slot of a `Song`.
`types.py` annotates the field as `str`, but Python does not enforce the
annotation: `search.py` stores plain strings there while
`generate_individual_song_reasoning` stores the whole `(filter_out, reason)`
tuple returned by `decode_individual_song_reasoning`.  Both runtime shapes
are represented. -/
inductive PyVal where
  | str : String → PyVal
  | pair : Bool → String → PyVal
deriving DecidableEq, Repr

/-- Python `repr` of a string, as used when a tuple is interpolated into an
f-string (`str((True, ''))` renders the string component quoted). -/
def pyReprStr (s : String) : String := "\x27" ++ s ++ "\x27"

/-- Python `str` of a `(bool, str)` tuple, e.g. `(True, \x27\x27)`. -/
def pyReprBoolStr (p : Bool × String) : String :=
  "(" ++ (if p.1 then "True" else "False") ++ ", " ++ pyReprStr p.2 ++ ")"

/-- `types.py` `RawSong` dataclass. -/
structure RawSong where
  id : String
  song_link : String
  album : String
  name : String
  artists : List String
deriving DecidableEq, Repr

/-- `types.py` `Song(RawSong)` dataclass.  Field order mirrors the generated
`__init__`: the inherited `RawSong` fields first, then `lyrics`,
`song_metadata` and the defaulted `reasoning`.  Note that the dataclass has
no `embedding` field. -/
structure Song where
  id : String
  song_link : String
  album : String
  name : String
  artists : List String
  lyrics : String
  song_metadata : String
  reasoning : PyVal := PyVal.str ""
deriving DecidableEq, Repr

/-- Keyword names accepted by the generated `Song.__init__`
(`types.py` lines 36-40: the five `RawSong` fields plus `lyrics`,
`song_metadata`, `reasoning`). -/
def songInitFields : List String :=
  ["id", "song_link", "album", "name", "artists", "lyrics", "song_metadata", "reasoning"]

/-- Python semantics of calling the generated dataclass constructor with a
set of keyword arguments: any keyword that is not a declared field raises
`TypeError`. -/
def checkSongKwargs (kwargs : List String) : Except String Unit :=
  match kwargs.find? (fun k => !songInitFields.contains k) with
  | some k =>
      Except.error ("TypeError: Song.__init__() got an unexpected keyword argument \x27" ++ k ++ "\x27")
  | none => Except.ok ()

/-- Whether the character list starts with the given pattern. -/
def startsWithChars : List Char → List Char → Bool
  | _, [] => true
  | [], _ :: _ => false
  | c :: cs, p :: ps => c == p && startsWithChars cs ps

/-- Fuel-driven scanner behind `pySplit`: left-to-right, non-overlapping
occurrences of a non-empty separator, keeping empty fields (Python
`str.split(sep)` semantics).  The fuel is an upper bound on the input
length, consumed one unit per examined character. -/
def pySplitAux (sep : List Char) : Nat → List Char → List Char → List (List Char)
  | 0, acc, _ => [acc.reverse]
  | _ + 1, acc, [] => [acc.reverse]
  | fuel + 1, acc, c :: cs =>
    if startsWithChars (c :: cs) sep then
      acc.reverse :: pySplitAux sep fuel [] (cs.drop (sep.length - 1))
    else
      pySplitAux sep fuel (c :: acc) cs

/-- Python `s.split(sep)` for a non-empty separator (the decoders only
ever pass the fixed tag and newline separators). -/
def pySplit (s sep : String) : List String :=
  if sep.data.isEmpty then [s]
  else (pySplitAux sep.data (s.data.length + 1) [] s.data).map String.mk

/-- The characters Python `str.strip()` removes. -/
def isPySpace (c : Char) : Bool :=
  c == ' ' || c == '\t' || c == '\n' || c == '\r' || c == '\x0b' || c == '\x0c'

/-- Python `s.strip()`. -/
def pyStrip (s : String) : String :=
  String.mk (((s.data.dropWhile isPySpace).reverse.dropWhile isPySpace).reverse)

/-- Python `s.startswith(pat)`. -/
def pyStartsWith (s pat : String) : Bool := startsWithChars s.data pat.data

/-- `RawSong.__str__` from `types.py`. -/
def rawSongStr (song : RawSong) : String :=
  "\n------------\nID\n------------\n" ++ song.id ++
  "\n------------\nName\n------------\n" ++ song.name ++
  "\n------------\nArtists\n------------\n" ++ String.intercalate ", " song.artists ++
  "\n------------\nAlbum\n------------\n" ++ song.album ++
  "\n------------\nSong Link\n------------\n" ++ song.song_link ++
  "\n------------\n"

/-- `Song.__str__` from `types.py`. -/
def songStr (song : Song) : String :=
  "\n------------\nID\n------------\n" ++ song.id ++
  "\n------------\nName\n------------\n" ++ song.name ++
  "\n------------\nArtists\n------------\n" ++ String.intercalate ", " song.artists ++
  "\n------------\nAlbum\n------------\n" ++ song.album ++
  "\n------------\nSong Link\n------------\n" ++ song.song_link ++
  "\n------------\nSong Metadata\n------------\n" ++ song.song_metadata ++
  "\n------------\nLyrics\n------------\n" ++ song.lyrics ++
  "\n------------\n"

/-- `prompts.get_basic_query`.  The two f-string templates are reproduced
verbatim (apostrophes written as `\x27`); `song_str` is the newline join of
`str(song)` over the library. -/
def getBasicQuery (library : List Song) (user_query : String) (n : Nat)
    (generate_song_reasoning : Bool) : String :=
  let song_str := String.intercalate "\n" (library.map songStr)
  if generate_song_reasoning then
    "\nHello, I am a music library assistant. I am here to help you find songs in my library.\n\nHere is the library:\n"
    ++ song_str
    ++ "\n\nHere is the user\x27s query:\n"
    ++ user_query
    ++ "\n\nWhich " ++ toString n ++ " songs in the library best match the user\x27s query?\n\n"
    ++ "IMPORTANT: Search through the lyrics carefully for exact phrase matches. If the user is looking for a specific lyric, prioritize songs that contain that exact phrase or very close variations.\n\n"
    ++ "For each song you select, provide a brief explanation of why it matches the query. Consider the lyrics, title, artist, and any other relevant information.\n\n"
    ++ "Rank songs with direct lyric or title matches above those with only thematic or emotional relevance.\n"
    ++ "If any song contains the exact phrase or a very close match to the user\x27s query in its lyrics or title, list it first.\n\n"
    ++ "CRITICAL: Use the EXACT song ID numbers from the library above. Do not make up IDs or use generic numbers.\n\n"
    ++ "Return the songs in the following format, ordered from most relevant to least relevant:\n"
    ++ "<song_id>EXACT_ID_FROM_LIBRARY</song_id>\n"
    ++ "<reason>brief explanation of why this song matches the query</reason>\n"
    ++ "<song_id>EXACT_ID_FROM_LIBRARY</song_id>\n"
    ++ "<reason>brief explanation of why this song matches the query</reason>\n"
    ++ "<song_id>EXACT_ID_FROM_LIBRARY</song_id>\n"
    ++ "<reason>brief explanation of why this song matches the query</reason>\n\n"
    ++ "Example: If a song has ID \"12345\" in the library, use <song_id>12345</song_id>\n"
  else
    "\nHello, I am a music library assistant. I am here to help you find songs in my library.\n\nHere is the library:\n"
    ++ song_str
    ++ "\n\nHere is the user\x27s query:\n"
    ++ user_query
    ++ "\n\nWhich " ++ toString n ++ " songs in the library best match the user\x27s query?\n\n"
    ++ "IMPORTANT: Search through the lyrics carefully for exact phrase matches. If the user is looking for a specific lyric, prioritize songs that contain that exact phrase or very close variations.\n\n"
    ++ "Rank songs with direct lyric or title matches above those with only thematic or emotional relevance.\n"
    ++ "If any song contains the exact phrase or a very close match to the user\x27s query in its lyrics or title, list it first.\n\n"
    ++ "CRITICAL: Use the EXACT song ID numbers from the library above. Do not make up IDs or use generic numbers.\n\n"
    ++ "Return the songs in the following format, ordered from most relevant to least relevant:\n"
    ++ "<song_id>EXACT_ID_FROM_LIBRARY</song_id>\n"
    ++ "<song_id>EXACT_ID_FROM_LIBRARY</song_id>\n"
    ++ "<song_id>EXACT_ID_FROM_LIBRARY</song_id>\n\n"
    ++ "Example: If a song has ID \"12345\" in the library, use <song_id>12345</song_id>\n"

/-- The id extraction on one stripped line of the model response:
`line.split("<song_id>")[1].split("</song_id>")[0]` (only reached when the
line starts with `<song_id>`, so index 1 exists). -/
def extractSongId (line : String) : String :=
  (pySplit ((pySplit line "<song_id>").getD 1 "") "</song_id>").headD ""

/-- `prompts.decode_assistant_response`.  Both branches of the source are
identical: each `<song_id>` line contributes the pair `(id, "")` and the
`<reason>` tags are never read. -/
def decodeAssistantResponse (response : String) (generate_song_reasoning : Bool) :
    List (String × String) :=
  if generate_song_reasoning then
    (pySplit response "\n").foldl
      (fun song_reasons line =>
        let line := pyStrip line
        if pyStartsWith line "<song_id>" then song_reasons ++ [(extractSongId line, "")]
        else song_reasons) []
  else
    (pySplit response "\n").foldl
      (fun song_reasons line =>
        let line := pyStrip line
        if pyStartsWith line "<song_id>" then song_reasons ++ [(extractSongId line, "")]
        else song_reasons) []

/-- Token-usage dictionary returned by the text-completion client
(`input_tokens` / `output_tokens`). -/
structure TU where
  input_tokens : Nat
  output_tokens : Nat
deriving DecidableEq, Repr

/-- The all-zero usage dict `{}` read with `.get(..., 0)`. -/
def TU.zero : TU := ⟨0, 0⟩

/-- The dict `{song.id: song for song in sublibrary}` built by
`recursive_search`: for duplicate ids the last entry wins, and lookup
succeeds exactly when some song has the id. -/
def idToSong (sublibrary : List Song) (song_id : String) : Option Song :=
  sublibrary.reverse.find? (fun song => song.id == song_id)

/-- The matching loop of `recursive_search` (search.py lines 369-381): each
decoded `(song_id, reason)` whose id is present in the sublibrary dict
appends that song with its `reasoning` attribute set; unknown ids are
skipped. -/
def matchSongs (sublibrary : List Song) (song_reasons : List (String × String)) : List Song :=
  song_reasons.filterMap (fun p =>
    (idToSong sublibrary p.1).map (fun song => { song with reasoning := PyVal.str p.2 }))

/-- `search.recursive_search`.  The text-completion client is a parameter
sending the prompt to the model and returning the first content block text
together with the usage metadata. -/
def recursiveSearch (client : String → String × TU) (sublibrary : List Song)
    (user_query : String) (n : Nat) (generate_song_reasoning : Bool) : List Song × TU :=
  let prompt := getBasicQuery sublibrary user_query n generate_song_reasoning
  let response := client prompt
  let response_text := response.1
  let token_usage := response.2
  let song_reasons := decodeAssistantResponse response_text generate_song_reasoning
  (matchSongs sublibrary song_reasons, token_usage)

/-- The chunking comprehension of `search_library` (search.py line 46):
`[library[i:i + chunk_size] for i in range(0, len(library), chunk_size)]`.
`range(0, L, c)` enumerates `ceil(L/c)` indices `0, c, 2c, ...` and the
slice `library[i:i+c]` is `(drop i).take c`.  (When `chunk_size = 0` the
Python `range` call raises; `search_library` guards that case.) -/
def pyChunks (l : List α) (c : Nat) : List (List α) :=
  (List.range' 0 ((l.length + c - 1) / c) c).map (fun i => (l.drop i).take c)

/-- One entry of the `requests_breakdown` list in the aggregated usage of
`search_library`. -/
structure BreakdownEntry where
  chunk_size : Nat
  input_tokens : Nat
  output_tokens : Nat
  final_reduction : Bool := false
deriving DecidableEq, Repr

/-- The `total_token_usage` dict built by `search_library`. -/
structure SearchUsage where
  total_input_tokens : Nat
  total_output_tokens : Nat
  total_requests : Nat
  requests_breakdown : List BreakdownEntry
deriving DecidableEq, Repr

/-- The body of the per-chunk loop in `search_library` (lines 61-73):
extend the filtered list with the chunk results and aggregate the usage. -/
def searchChunkStep (client : String → String × TU) (user_query : String) (n : Nat)
    (generate_song_reasoning : Bool) (acc : List Song × SearchUsage) (chunk : List Song) :
    List Song × SearchUsage :=
  let r := recursiveSearch client chunk user_query n generate_song_reasoning
  (acc.1 ++ r.1,
   { total_input_tokens := acc.2.total_input_tokens + r.2.input_tokens,
     total_output_tokens := acc.2.total_output_tokens + r.2.output_tokens,
     total_requests := acc.2.total_requests + 1,
     requests_breakdown := acc.2.requests_breakdown ++
       [{ chunk_size := chunk.length, input_tokens := r.2.input_tokens,
          output_tokens := r.2.output_tokens }] })

/-- `search.search_library`.  The lyric-length statistics computed at entry
(lines 27-43) only feed `print` calls and a `/tmp` debug file, so they do
not affect the returned value -- except that `min`/`max` over
`[len(song.lyrics) for song in library]` raise `ValueError` when the
library is empty, and `range(0, L, 0)` raises when `chunk_size` is zero;
both uncaught exceptions are modelled as `.error`.  Note the final
reduction call (line 80) does not forward `generate_song_reasoning`. -/
def searchLibrary (client : String → String × TU) (library : List Song)
    (user_query : String) (n : Nat) (chunk_size : Nat)
    (generate_song_reasoning : Bool) : Except String (List Song × SearchUsage) :=
  if library.isEmpty then
    Except.error "ValueError: min() arg is an empty sequence"
  else if chunk_size = 0 then
    Except.error "ValueError: range() arg 3 must not be zero"
  else
    let chunks := pyChunks library chunk_size
    let folded := chunks.foldl
      (searchChunkStep client user_query n generate_song_reasoning)
      ([], ⟨0, 0, 0, []⟩)
    let filtered_songs := folded.1
    let total_token_usage := folded.2
    if n < filtered_songs.length then
      let final := recursiveSearch client filtered_songs user_query n false
      Except.ok (final.1,
        { total_input_tokens := total_token_usage.total_input_tokens + final.2.input_tokens,
          total_output_tokens := total_token_usage.total_output_tokens + final.2.output_tokens,
          total_requests := total_token_usage.total_requests + 1,
          requests_breakdown := total_token_usage.requests_breakdown ++
            [{ chunk_size := filtered_songs.length, input_tokens := final.2.input_tokens,
               output_tokens := final.2.output_tokens, final_reduction := true }] })
    else
      Except.ok (filtered_songs, total_token_usage)

/-- A token-usage dict with the keys produced by `create_query_embedding`,
`generate_individual_song_reasoning` and `generate_many_song_reasoning`
(`input_tokens` / `output_tokens` / `total_tokens`, plus the `error` key
added by the failure branches). -/
structure UsageDict where
  input_tokens : Nat
  output_tokens : Nat
  total_tokens : Nat
  error : Option String := none
deriving DecidableEq, Repr

/-- The all-zero usage dict. -/
def UsageDict.zero : UsageDict := ⟨0, 0, 0, none⟩

/-- `search.create_query_embedding`.  The OpenAI embeddings endpoint is a
parameter returning the vector plus `(prompt_tokens, total_tokens)`; a
raised error is caught and degraded to an empty embedding with the error
message recorded in the usage dict. -/
def createQueryEmbedding (embed_client : String → Except String (List Float × Nat × Nat))
    (query : String) : List Float × UsageDict :=
  match embed_client query with
  | Except.ok (embedding, prompt_tokens, total_tokens) =>
      (embedding, { input_tokens := prompt_tokens, output_tokens := 0,
                    total_tokens := total_tokens })
  | Except.error e =>
      ([], { input_tokens := 0, output_tokens := 0, total_tokens := 0, error := some e })

/-- A row returned by the Supabase `match_songs_v2` RPC, as consumed by
`vector_search_library` (square-bracket keys are required, `.get` keys are
optional). -/
structure DbRecord where
  id : String
  name : String
  artists : String
  album : String
  song_link : String
  lyrics : Option String := none
  song_metadata : Option String := none
  embedding : Option (List Float) := none
  similarity : Option Float := none

/-- The result-conversion loop of `vector_search_library` (search.py lines
226-241).  Each row is turned into a `Song(...)` call whose keyword
arguments include `embedding=db_song.get(\x27embedding\x27, [])`; since the
`Song` dataclass has no such field the call raises `TypeError`. -/
def buildSongsFromRecords (records : List DbRecord) : Except String (List Song) :=
  records.foldlM
    (fun songs db_song => do
      let artists_list := (pySplit db_song.artists ",").map pyStrip
      checkSongKwargs ["id", "name", "artists", "album", "song_link", "lyrics",
                       "song_metadata", "embedding"]
      pure (songs ++ [{ id := db_song.id, name := db_song.name, artists := artists_list,
                        album := db_song.album, song_link := db_song.song_link,
                        lyrics := db_song.lyrics.getD "",
                        song_metadata := db_song.song_metadata.getD "" }]))
    []

/-- The usage dict returned by `vector_search_library`.  The success branch
carries `embedding_tokens` / `reasoning_tokens` sub-dicts; the failure
branch instead carries the `error` key. -/
structure VectorUsage where
  total_input_tokens : Nat
  total_output_tokens : Nat
  total_requests : Nat
  vector_search : Bool := true
  embedding_tokens : Option UsageDict := none
  reasoning_tokens : Option UsageDict := none
  error : Option String := none
deriving DecidableEq, Repr

/-- `search.vector_search_library`.  `config` models the two Supabase
environment variables (missing configuration raises); `store` models the
`match_songs_v2` RPC; `reasoning_step` models the call to
`generate_many_song_reasoning`.  Everything from the RPC call to the
return statement sits inside one `try`, whose `except` clause returns an
EMPTY result (with the embedding-stage tokens and the error message in the
usage dict) instead of re-raising. -/
def vectorSearchLibrary (config : Option Unit)
    (embed_client : String → Except String (List Float × Nat × Nat))
    (store : List Float → String → Float → Nat → Except String (List DbRecord))
    (reasoning_step : List Song → List (Option Float) → Except String (List Song × UsageDict))
    (user_id : String) (user_query : String) (n : Nat) (match_threshold : Float)
    (generate_song_reasoning : Bool) : Except String (List Song × VectorUsage) :=
  match config with
  | none => Except.error "Missing Supabase configuration"
  | some _ =>
    let qe := createQueryEmbedding embed_client user_query
    let query_embedding := qe.1
    let embedding_token_usage := qe.2
    match ((do
        let records ← store query_embedding user_id match_threshold n
        let songs ← buildSongsFromRecords records
        let sr ← if generate_song_reasoning && !songs.isEmpty then
            reasoning_step songs (records.map DbRecord.similarity)
          else
            pure (songs, UsageDict.zero)
        pure (sr.1,
          { total_input_tokens :=
              embedding_token_usage.input_tokens + sr.2.input_tokens,
            total_output_tokens :=
              embedding_token_usage.output_tokens + sr.2.output_tokens,
            total_requests := 1 + (if 0 < sr.2.input_tokens then 1 else 0),
            embedding_tokens := some embedding_token_usage,
            reasoning_tokens := some sr.2 })) : Except String (List Song × VectorUsage)) with
    | Except.ok result => Except.ok result
    | Except.error e =>
        Except.ok ([],
          { total_input_tokens := embedding_token_usage.input_tokens,
            total_output_tokens := embedding_token_usage.output_tokens,
            total_requests := 1,
            error := some e })

/-- `prompts.get_individual_song_reasoning_query`.  The template is
reproduced verbatim; `similarity_score` is accepted but never interpolated
(matching the source), and Python truthiness maps empty metadata/lyrics to
`N/A`. -/
def getIndividualSongReasoningQuery (user_query : String) (song : Song)
    (similarity_score : Option Float) : String :=
  "\nHello, I am a music library assistant. I need to explain why this song matches the user\x27s query. If it doesn\x27t match, I have a mechanism\nto filter it out.\n\n"
  ++ "Song Information:\n"
  ++ "- ID: " ++ song.id ++ "\n"
  ++ "- Title: " ++ song.name ++ "\n"
  ++ "- Artist(s): " ++ String.intercalate ", " song.artists ++ "\n"
  ++ "- Album: " ++ song.album ++ "\n"
  ++ "- Song Metadata: " ++ (if song.song_metadata = "" then "N/A" else song.song_metadata) ++ "\n"
  ++ "- Lyrics: " ++ (if song.lyrics = "" then "N/A" else song.lyrics) ++ "\n\n"
  ++ "User\x27s Query: " ++ user_query ++ "\n\n"
  ++ "Provide a CONCISE, specific explanation (1 sentence) of why this song matches the user\x27s query.\n\n"
  ++ "Consider:\n"
  ++ "- Lyrical content and themes that match the query\n"
  ++ "- Musical style and genre (if mentioned in metadata)\n"
  ++ "- Emotional tone that aligns with the query  \n"
  ++ "- Specific phrases or concepts in the lyrics that relate to the query\n"
  ++ "- Cultural or historical significance that connects to the query\n\n"
  ++ "IMPORTANT: Be concise but specific. Focus on the most relevant connection between the song and the query.\n\n"
  ++ "Tips on the tone:\n"
  ++ "- Keep your tone casual and conversational. Don\x27t be too formal. Don\x27t be too verbose.\n"
  ++ "- Don\x27t recite the song name or artist name in your explanation. The user already knows it.\n"
  ++ "- If the query is just \"patti\", then an explanation for a song by Patti Smith should simply be \"Matching first name\".\n"
  ++ "- Always use proper punctuation. In particular, use a period at the end of your explanation.\n\n"
  ++ "Return your explanation in this exact format:\n"
  ++ "<filter_out>true</filter_out>\n"
  ++ "<reason>your specific explanation here</reason>\n\n"
  ++ "Note that there are two XML tags in the response. The first one is <filter_out> and the second one is <reason>.\n"
  ++ "- If the song should be filtered out, set <filter_out> to true.\n"
  ++ "- If the song should not be filtered out, set <filter_out> to false.\n"
  ++ "- If the song should be filtered out, the <reason> tag should be empty.\n"
  ++ "- If the song should not be filtered out, the <reason> tag should be the explanation for why the song matches the query.\n\n"
  ++ "----\n"
  ++ "HERE IS AN EXAMPLE OF AN EXPLANATION THAT IS TOO VERBOSE:\n"
  ++ "The song \"Suzanne\" by Hope Sandoval & The Warm Inventions reflects themes of longing and personal connections, \n"
  ++ "evoking a similar emotional tone as works by artists like Patti Smith, making it resonate with listeners who appreciate introspective and emotionally rich music.\n"

/-- Python list indexing `l[i]`: raises `IndexError` when out of range. -/
def pyIndex (l : List α) (i : Nat) : Except String α :=
  if h : i < l.length then Except.ok (l.get ⟨i, h⟩)
  else Except.error "IndexError: list index out of range"

/-- `prompts.decode_individual_song_reasoning`: asserts the stripped
response has one or two lines, reads the `<filter_out>` tag from line 0
(an absent tag raises `IndexError`), and reads the `<reason>` tag from
line 1 only when not filtered out. -/
def decodeIndividualSongReasoning (response : String) : Except String (Bool × String) := do
  let lines := pySplit (pyStrip response) "\n"
  if lines.length = 1 ∨ lines.length = 2 then
    let line0 ← pyIndex lines 0
    let part0 ← pyIndex (pySplit line0 "<filter_out>") 1
    let filter_out := ((pySplit part0 "</filter_out>").headD "") == "true"
    if filter_out then
      pure (true, "")
    else
      let line1 ← pyIndex lines 1
      let part1 ← pyIndex (pySplit line1 "<reason>") 1
      pure (false, (pySplit part1 "</reason>").headD "")
  else
    Except.error "AssertionError: Expected 2 lines in the response"

/-- `search.generate_individual_song_reasoning`.  The per-item LLM call and
the decode run inside one `try`.  On success the tuple returned by
`decode_individual_song_reasoning` is assigned to `song.reasoning`
unchanged when there is no similarity score, and interpolated through an
f-string (Python `str` of the tuple) when there is one; `fmt` models the
`:.3f` float formatting.  On any caught failure a generic fallback
reasoning string is substituted and the usage is zero with the error
recorded. -/
def generateIndividualSongReasoning (client : String → Except String (String × TU))
    (fmt : Float → String) (song : Song) (user_query : String)
    (similarity_score : Option Float) : Song × UsageDict :=
  match (do
      let prompt := getIndividualSongReasoningQuery user_query song similarity_score
      let r ← client prompt
      let reason ← decodeIndividualSongReasoning r.1
      pure (reason, r.2) : Except String ((Bool × String) × TU)) with
  | Except.ok (reason, token_usage) =>
      let song :=
        match similarity_score with
        | some sc =>
            { song with reasoning :=
                PyVal.str (pyReprBoolStr reason ++ " (similarity: " ++ fmt sc ++ ")") }
        | none => { song with reasoning := PyVal.pair reason.1 reason.2 }
      (song, { input_tokens := token_usage.input_tokens,
               output_tokens := token_usage.output_tokens,
               total_tokens := token_usage.input_tokens + token_usage.output_tokens })
  | Except.error e =>
      let fallback_reason := "Vector similarity match based on semantic content" ++
        (match similarity_score with
         | some sc => " (similarity: " ++ fmt sc ++ ")"
         | none => "")
      ({ song with reasoning := PyVal.str fallback_reason },
       { input_tokens := 0, output_tokens := 0, total_tokens := 0, error := some e })

/-- `utils.SKIP_EXPENSIVE_STEPS` (utils.py line 28). -/
def SKIP_EXPENSIVE_STEPS : Bool := false

/-- The running `total_enrichment_tokens` dict of `utils.enrich_songs`. -/
structure EnrichTotals where
  total_input_tokens : Nat
  total_output_tokens : Nat
  total_requests : Nat
deriving DecidableEq, Repr

/-- `search.create_song_embedding`: stringify the song and call the OpenAI
embeddings endpoint (a parameter); errors propagate to the caller.  The
enrichment pipeline passes its `RawSong` values here, so `str(song)` uses
`RawSong.__str__`. -/
def createSongEmbedding (embed_client : String → Except String (List Float))
    (song : RawSong) : Except String (List Float) :=
  embed_client (rawSongStr song)

/-- `utils.enrich_songs.enrich_single_song`.  The locals start as
`lyrics = ""`, `song_metadata = ""`, `token_usage = {}`, `embedding = []`;
the three sub-steps and the `SearchSong(...)` construction run inside one
`try` whose `except` clause re-runs the construction with the values
assigned so far.  Both constructions pass `embedding=` as a keyword, which
the `Song` dataclass rejects, so both raise `TypeError`. -/
def enrichSingleSong (get_lyrics : RawSong → Except String String)
    (get_song_metadata : RawSong → Except String (String × TU))
    (embed_client : String → Except String (List Float))
    (song : RawSong) : Except String (Song × TU) :=
  let construct : String → String → Except String Song := fun lyrics song_metadata => do
    checkSongKwargs ["id", "song_link", "album", "name", "artists", "lyrics",
                     "song_metadata", "embedding"]
    pure { id := song.id, song_link := song.song_link, album := song.album,
           name := song.name, artists := song.artists, lyrics := lyrics,
           song_metadata := song_metadata }
  match get_lyrics song with
  | Except.error _ => (construct "" "").map (fun s => (s, TU.zero))
  | Except.ok lyrics =>
    match get_song_metadata song with
    | Except.error _ => (construct lyrics "").map (fun s => (s, TU.zero))
    | Except.ok (song_metadata, token_usage) =>
      match createSongEmbedding embed_client song with
      | Except.error _ => (construct lyrics song_metadata).map (fun s => (s, TU.zero))
      | Except.ok _embedding =>
        match construct lyrics song_metadata with
        | Except.ok s => Except.ok (s, token_usage)
        | Except.error _ => (construct lyrics song_metadata).map (fun s => (s, TU.zero))

/-- The consumption loop of `utils.enrich_songs`, sequentialised in input
order (completion order is not guaranteed by the source).  A failed future
is caught by the outer `except`, which yields the item rebuilt with empty
`lyrics` and `song_metadata` (these keyword arguments are all dataclass
fields, so this construction succeeds); the running totals are only
advanced by successful enrichments.  Database writes are wrapped in their
own `try` in the source and have no effect on the yielded values. -/
def enrichSongsGo (get_lyrics : RawSong → Except String String)
    (get_song_metadata : RawSong → Except String (String × TU))
    (embed_client : String → Except String (List Float)) :
    List RawSong → EnrichTotals → List (Song × EnrichTotals)
  | [], _ => []
  | song :: rest, totals =>
    match enrichSingleSong get_lyrics get_song_metadata embed_client song with
    | Except.ok (enriched_song, token_usage) =>
        let totals : EnrichTotals :=
          { total_input_tokens := totals.total_input_tokens + token_usage.input_tokens,
            total_output_tokens := totals.total_output_tokens + token_usage.output_tokens,
            total_requests := totals.total_requests +
              (if SKIP_EXPENSIVE_STEPS then 0 else 1) }
        (enriched_song, totals) ::
          enrichSongsGo get_lyrics get_song_metadata embed_client rest totals
    | Except.error _ =>
        let empty_song : Song :=
          { id := song.id, song_link := song.song_link, album := song.album,
            name := song.name, artists := song.artists, lyrics := "",
            song_metadata := "" }
        (empty_song, totals) ::
          enrichSongsGo get_lyrics get_song_metadata embed_client rest totals

/-- `utils.enrich_songs`: the generator yields one pair per input item (an
empty input yields nothing). -/
def enrichSongs (get_lyrics : RawSong → Except String String)
    (get_song_metadata : RawSong → Except String (String × TU))
    (embed_client : String → Except String (List Float))
    (songs : List RawSong) : List (Song × EnrichTotals) :=
  if songs.isEmpty then []
  else enrichSongsGo get_lyrics get_song_metadata embed_client songs ⟨0, 0, 0⟩

/-- The song a given raw item ends up yielding from `enrich_songs`: the
enriched song on success, the empty-fields rebuild on a caught failure. -/
def yieldedSong (get_lyrics : RawSong → Except String String)
    (get_song_metadata : RawSong → Except String (String × TU))
    (embed_client : String → Except String (List Float))
    (song : RawSong) : Song :=
  match enrichSingleSong get_lyrics get_song_metadata embed_client song with
  | Except.ok (enriched_song, _) => enriched_song
  | Except.error _ =>
      { id := song.id, song_link := song.song_link, album := song.album,
        name := song.name, artists := song.artists, lyrics := "",
        song_metadata := "" }

/-! ## Sample data used by witnesses and concrete evaluations -/

/-- A small concrete song used in witnesses. -/
def sampleSong (i : String) : Song :=
  { id := i, song_link := "link-" ++ i, album := "Album", name := "Song " ++ i,
    artists := ["Artist " ++ i], lyrics := "la la " ++ i, song_metadata := "meta " ++ i }

/-- The three-song library of the specification example scenario. -/
def scenarioLibrary : List Song := [sampleSong "1", sampleSong "2", sampleSong "3"]

/-- A stub client that always answers with the scenario response. -/
def stubClient : String → String × TU :=
  fun _ => ("<song_id>2</song_id><reason>lyric match</reason>", TU.zero)

/-- A stub client that always answers with the empty string. -/
def emptyRespClient : String → String × TU := fun _ => ("", TU.zero)

/-- A stub client that names an id absent from small libraries. -/
def strayIdClient : String → String × TU := fun _ => ("<song_id>999</song_id>", TU.zero)

/-- A stub client that repeats the same id on two lines. -/
def dupIdClient : String → String × TU :=
  fun _ => ("<song_id>1</song_id>\n<song_id>1</song_id>", TU.zero)

/-- A stub client that mixes a hallucinated id with a valid one. -/
def strayAndValidClient : String → String × TU :=
  fun _ => ("<song_id>999</song_id>\n<song_id>1</song_id>", TU.zero)

/-- A small concrete raw song used in enrichment witnesses. -/
def sampleRaw : RawSong :=
  { id := "1", song_link := "link-1", album := "Album", name := "Song 1",
    artists := ["Artist 1"] }

/-- A small concrete store row used in vector-search evaluations. -/
def sampleRecord : DbRecord :=
  { id := "1", name := "Song 1", artists := "Artist 1, Artist 2", album := "Album",
    song_link := "link-1" }

/-- A lyrics fetcher stub that always succeeds. -/
def okLyrics : RawSong → Except String String := fun _ => Except.ok "la"

/-- A lyrics fetcher stub that always raises. -/
def failingLyrics : RawSong → Except String String := fun _ => Except.error "fetch failed"

/-- A metadata fetcher stub that always succeeds. -/
def okMetadata : RawSong → Except String (String × TU) := fun _ => Except.ok ("m", ⟨1, 2⟩)

/-- An embedding endpoint stub that always succeeds. -/
def okEmbedding : String → Except String (List Float) := fun _ => Except.ok []

/-! ## Chunking lemmas -/

/-- Shifting the start of a `range'` commutes with mapping. -/
theorem range'_map_shift {β : Type _} (f : Nat → β) :
    ∀ (k a d step : Nat),
      (List.range' (a + d) k step).map f =
        (List.range' a k step).map (fun i => f (i + d))
  | 0, _, _, _ => rfl
  | k + 1, a, d, step => by
    rw [List.range'_succ, List.range'_succ, List.map_cons, List.map_cons]
    have h1 : a + d + step = a + step + d := by omega
    rw [h1, range'_map_shift f k (a + step) d step]

/-- Chunking the empty list yields no chunks. -/
theorem pyChunks_nil (c : Nat) : pyChunks ([] : List α) c = [] := by
  have h : (c - 1) / c = 0 := by
    cases c with
    | zero => simp
    | succ k => exact Nat.div_eq_of_lt (by omega)
  simp [pyChunks, h]

/-- Unfolding equation: for a positive chunk size and a non-empty list, the
first chunk is `take c` and the rest chunk `drop c`. -/
theorem pyChunks_cons (c : Nat) (hc : 0 < c) (l : List α) (hl : l ≠ []) :
    pyChunks l c = l.take c :: pyChunks (l.drop c) c := by
  have hL : 1 ≤ l.length := List.length_pos.mpr hl
  have hm : (l.length + c - 1) / c = ((l.drop c).length + c - 1) / c + 1 := by
    rw [List.length_drop]
    rcases Nat.lt_or_ge l.length c with h | h
    · have h1 : l.length - c = 0 := by omega
      have h2 : (0 + c - 1) / c = 0 := Nat.div_eq_of_lt (by omega)
      have h3 : (l.length + c - 1) / c = 1 :=
        Nat.div_eq_of_lt_le (by omega) (by omega)
      rw [h1, h2, h3]
    · have h1 : l.length - c + c - 1 = l.length - 1 := by omega
      have h2 : l.length + c - 1 = (l.length - 1) + c := by omega
      rw [h1, h2, Nat.add_div_right _ hc]
  unfold pyChunks
  rw [hm, List.range'_succ, List.map_cons, List.drop_zero]
  congr 1
  have hshift := range'_map_shift (fun i => (l.drop i).take c)
    (((l.drop c).length + c - 1) / c) 0 c c
  rw [hshift]
  refine List.map_congr_left (fun i _ => ?_)
  rw [List.drop_drop]
  rw [Nat.add_comm c i]

/-- Strong-induction principle matching the recursive structure of
`pyChunks`. -/
theorem pyChunks_rec_on (c : Nat) (hc : 0 < c) {P : List α → Prop}
    (h0 : P []) (hstep : ∀ l : List α, l ≠ [] → P (l.drop c) → P l) :
    ∀ l : List α, P l := by
  have aux : ∀ (n : Nat) (l : List α), l.length ≤ n → P l := by
    intro n
    induction n with
    | zero =>
      intro l hl
      have hnil : l = [] := List.eq_nil_of_length_eq_zero (Nat.le_zero.mp hl)
      exact hnil ▸ h0
    | succ n ih =>
      intro l hl
      by_cases h : l = []
      · exact h ▸ h0
      · refine hstep l h (ih _ ?_)
        have h1 : 0 < l.length := List.length_pos.mpr h
        rw [List.length_drop]
        omega
  exact fun l => aux l.length l le_rfl

/-- The chunks concatenate back to the original list. -/
theorem pyChunks_flatten (c : Nat) (hc : 0 < c) (l : List α) :
    (pyChunks l c).flatten = l := by
  induction l using pyChunks_rec_on c hc with
  | h0 => rw [pyChunks_nil]; rfl
  | hstep l hl ih =>
    rw [pyChunks_cons c hc l hl, List.flatten_cons, ih, List.take_append_drop]

/-- Every chunk is non-empty and no longer than the chunk size. -/
theorem pyChunks_mem_bounds (c : Nat) (hc : 0 < c) (l : List α) :
    ∀ ch ∈ pyChunks l c, ch ≠ [] ∧ ch.length ≤ c := by
  induction l using pyChunks_rec_on c hc with
  | h0 => rw [pyChunks_nil]; intro ch h; exact absurd h (List.not_mem_nil ch)
  | hstep l hl ih =>
    rw [pyChunks_cons c hc l hl]
    intro ch h
    rcases List.mem_cons.mp h with h | h
    · subst h
      constructor
      · refine List.ne_nil_of_length_pos ?_
        rw [List.length_take]
        have h1 : 0 < l.length := List.length_pos.mpr hl
        omega
      · rw [List.length_take]; omega
    · exact ih ch h

/-- All chunks except possibly the last have exactly the chunk size. -/
theorem pyChunks_dropLast_length (c : Nat) (hc : 0 < c) (l : List α) :
    ∀ ch ∈ (pyChunks l c).dropLast, ch.length = c := by
  induction l using pyChunks_rec_on c hc with
  | h0 => rw [pyChunks_nil]; intro ch h; exact absurd h (List.not_mem_nil ch)
  | hstep l hl ih =>
    rw [pyChunks_cons c hc l hl]
    by_cases hr : pyChunks (l.drop c) c = []
    · rw [hr]
      intro ch h
      exact absurd h (List.not_mem_nil ch)
    · rw [List.dropLast_cons_of_ne_nil hr]
      intro ch h
      rcases List.mem_cons.mp h with h | h
      · subst h
        have hdrop : l.drop c ≠ [] := by
          intro hd
          exact hr (by rw [hd, pyChunks_nil])
        have h1 : 0 < (l.drop c).length := List.length_pos.mpr hdrop
        rw [List.length_drop] at h1
        rw [List.length_take]
        omega
      · exact ih ch h

/-! ## Counting helpers -/

/-- A list of lists has at most as many blocks containing a `p`-element as
there are `p`-elements in total. -/
theorem countP_any_le_sum (p : α → Bool) :
    ∀ cs : List (List α),
      cs.countP (fun ch => ch.any p) ≤ (cs.map (fun ch => ch.countP p)).sum
  | [] => Nat.le_refl 0
  | ch :: cs => by
    rw [List.countP_cons, List.map_cons, List.sum_cons]
    have hrec := countP_any_le_sum p cs
    cases h : ch.any p with
    | true =>
      have h1 : 0 < ch.countP p := List.countP_pos_iff.mpr (List.any_eq_true.mp h)
      simp only [h, if_true]
      omega
    | false =>
      simp [h]
      omega

/-! ## Lemmas about the id dictionary and the matching loop -/

/-- A successful dict lookup returns a sublibrary song bearing the looked-up
id. -/
theorem idToSong_mem {sublibrary : List Song} {sid : String} {s : Song}
    (h : idToSong sublibrary sid = some s) : s ∈ sublibrary ∧ s.id = sid := by
  unfold idToSong at h
  have h1 := List.mem_of_find?_eq_some h
  have h2 := List.find?_some h
  exact ⟨List.mem_reverse.mp h1, by simpa using h2⟩

/-- The dict lookup succeeds exactly for ids present in the sublibrary. -/
theorem idToSong_isSome {sublibrary : List Song} {sid : String}
    (h : sid ∈ sublibrary.map Song.id) : (idToSong sublibrary sid).isSome = true := by
  unfold idToSong
  rw [List.find?_isSome]
  rcases List.mem_map.mp h with ⟨t, ht, hid⟩
  exact ⟨t, List.mem_reverse.mpr ht, by simp [hid]⟩

/-- Every song produced by the matching loop has an id from the
sublibrary. -/
theorem matchSongs_id_mem {sublibrary : List Song} {ps : List (String × String)} :
    ∀ s ∈ matchSongs sublibrary ps, s.id ∈ sublibrary.map Song.id := by
  intro s hs
  unfold matchSongs at hs
  rcases List.mem_filterMap.mp hs with ⟨p, _hp, hmap⟩
  rcases Option.map_eq_some'.mp hmap with ⟨t, hfind, hts⟩
  rcases idToSong_mem hfind with ⟨htmem, htid⟩
  refine List.mem_map.mpr ⟨t, htmem, ?_⟩
  rw [← hts]

/-- The matching loop preserves multiplicity: for an id present in the
sublibrary, the output contains one song per decoded occurrence of that
id. -/
theorem matchSongs_countP (sublibrary : List Song) (x : String)
    (hx : x ∈ sublibrary.map Song.id) :
    ∀ ps : List (String × String),
      (matchSongs sublibrary ps).countP (fun s => s.id == x) =
        ps.countP (fun p => p.1 == x)
  | [] => rfl
  | p :: ps => by
    have hrec := matchSongs_countP sublibrary x hx ps
    unfold matchSongs at hrec ⊢
    rw [List.filterMap_cons]
    cases hfind : idToSong sublibrary p.1 with
    | none =>
      have hne : (p.1 == x) = false := by
        cases hbe : p.1 == x with
        | false => rfl
        | true =>
          have hpx : p.1 = x := by simpa using hbe
          have hsome := idToSong_isSome (hpx ▸ hx)
          rw [hfind] at hsome
          simp at hsome
      rw [List.countP_cons, hne]
      simpa using hrec
    | some t =>
      have htid : t.id = p.1 := (idToSong_mem hfind).2
      simp only [Option.map_some']
      rw [List.countP_cons, List.countP_cons]
      have hpred : (({ t with reasoning := PyVal.str p.2 } : Song).id == x) = (p.1 == x) := by
        simp [htid]
      rw [hpred, hrec]

/-! ## Lemmas about the chunk loop of search_library -/

/-- The first component of the chunk fold is the concatenation of the
per-chunk `recursive_search` results. -/
theorem searchChunkStep_foldl_fst (client : String → String × TU) (user_query : String)
    (n : Nat) (g : Bool) :
    ∀ (chunks : List (List Song)) (acc : List Song × SearchUsage),
      (chunks.foldl (searchChunkStep client user_query n g) acc).1 =
        acc.1 ++ (chunks.map (fun ch => (recursiveSearch client ch user_query n g).1)).flatten
  | [], acc => by simp
  | ch :: chunks, acc => by
    rw [List.foldl_cons, searchChunkStep_foldl_fst client user_query n g chunks _,
        List.map_cons, List.flatten_cons]
    simp [searchChunkStep, List.append_assoc]

/-- The empty-string model response decodes to no ids, so
`recursive_search` returns no songs. -/
theorem recursiveSearch_emptyRespClient (sub : List Song) (user_query : String)
    (n : Nat) (g : Bool) : (recursiveSearch emptyRespClient sub user_query n g).1 = [] := by
  cases g <;> rfl

/-! ## Claim theorems -/

/-- C1: for every model response (any client behaviour) and every
sublibrary passed to `recursive_search`, an id in the response that is not
the id of a song in the sublibrary is silently dropped (the function is
total, so no error is raised), and therefore no song whose id is absent
from the sublibrary ever appears in the returned list. -/
theorem spec_c1_no_hallucinated_ids (client : String → String × TU)
    (sublibrary : List Song) (user_query : String) (n : Nat)
    (generate_song_reasoning : Bool) :
    ∀ s ∈ (recursiveSearch client sublibrary user_query n generate_song_reasoning).1,
      s.id ∈ sublibrary.map Song.id := by
  intro s hs
  exact matchSongs_id_mem s hs

/-- Witness for C1 at a concrete input: a response naming the hallucinated
id 999 and the valid id 1 against a one-song sublibrary yields only the
song with id 1. -/
theorem spec_c1_no_hallucinated_ids_witness :
    ({ sampleSong "1" with reasoning := PyVal.str "" } : Song).id ∈
      [sampleSong "1"].map Song.id :=
  spec_c1_no_hallucinated_ids strayAndValidClient [sampleSong "1"] "q" 3 false
    { sampleSong "1" with reasoning := PyVal.str "" } (by decide)

/-- C9: for a library of length `L` and a positive chunk size `C`, phase 1
of `search_library` builds exactly `ceil(L/C)` consecutive chunks whose
concatenation is the original list; every chunk except possibly the last
has size `C`, every chunk is non-empty and no larger than `C`, and (ids
being unique) every item id appears in exactly one chunk. -/
theorem spec_c9_chunk_coverage (items : List Song) (c : Nat) (hc : 0 < c) :
    (pyChunks items c).length = (items.length + c - 1) / c ∧
    (pyChunks items c).flatten = items ∧
    (∀ ch ∈ (pyChunks items c).dropLast, ch.length = c) ∧
    (∀ ch ∈ pyChunks items c, ch ≠ [] ∧ ch.length ≤ c) ∧
    ((items.map Song.id).Nodup → ∀ s ∈ items,
      (pyChunks items c).countP (fun ch => ch.any (fun t => t.id == s.id)) = 1) := by
  refine ⟨?_, pyChunks_flatten c hc items, pyChunks_dropLast_length c hc items,
    pyChunks_mem_bounds c hc items, ?_⟩
  · simp [pyChunks]
  · intro hnd s hs
    have hflat := pyChunks_flatten c hc items
    have htotal :
        ((pyChunks items c).map
          (fun ch => ch.countP (fun t => t.id == s.id))).sum = 1 := by
      rw [← List.countP_flatten, hflat]
      have h1 : items.countP (fun t => t.id == s.id) =
          (items.map Song.id).countP (fun i => i == s.id) := by
        rw [List.countP_map]
        rfl
      have h2 : (items.map Song.id).countP (fun i => i == s.id) =
          (items.map Song.id).count s.id := rfl
      have h3 : (items.map Song.id).count s.id = 1 :=
        List.count_eq_one_of_mem hnd (List.mem_map.mpr ⟨s, hs, rfl⟩)
      rw [h1, h2, h3]
    have hupper := countP_any_le_sum (fun t => t.id == s.id) (pyChunks items c)
    rw [htotal] at hupper
    have hlower : 0 < (pyChunks items c).countP
        (fun ch => ch.any (fun t => t.id == s.id)) := by
      refine List.countP_pos_iff.mpr ?_
      have hsmem : s ∈ (pyChunks items c).flatten := by rw [hflat]; exact hs
      rcases List.mem_flatten.mp hsmem with ⟨ch, hchmem, hsch⟩
      exact ⟨ch, hchmem, List.any_eq_true.mpr ⟨s, hsch, by simp⟩⟩
    omega

/-- Witness for C9: the three-song scenario library with chunk size 2. -/
theorem spec_c9_chunk_coverage_witness :
    (pyChunks scenarioLibrary 2).length = (scenarioLibrary.length + 2 - 1) / 2 ∧
    (pyChunks scenarioLibrary 2).flatten = scenarioLibrary ∧
    (∀ ch ∈ (pyChunks scenarioLibrary 2).dropLast, ch.length = 2) ∧
    (∀ ch ∈ pyChunks scenarioLibrary 2, ch ≠ [] ∧ ch.length ≤ 2) ∧
    ((scenarioLibrary.map Song.id).Nodup → ∀ s ∈ scenarioLibrary,
      (pyChunks scenarioLibrary 2).countP (fun ch => ch.any (fun t => t.id == s.id)) = 1) :=
  spec_c9_chunk_coverage scenarioLibrary 2 (by decide)

/-- C10: `recursive_search` does not deduplicate the model output: for an
id present in the sublibrary, the returned list contains one song entry
per decoded occurrence of that id in the response, so results can repeat
the same item. -/
theorem spec_c10_no_dedup (client : String → String × TU) (sublibrary : List Song)
    (user_query : String) (n : Nat) (generate_song_reasoning : Bool) (x : String)
    (hx : x ∈ sublibrary.map Song.id) :
    ((recursiveSearch client sublibrary user_query n generate_song_reasoning).1.countP
        (fun s => s.id == x)) =
      ((decodeAssistantResponse
          (client (getBasicQuery sublibrary user_query n generate_song_reasoning)).1
          generate_song_reasoning).countP (fun p => p.1 == x)) := by
  exact matchSongs_countP sublibrary x hx _

/-- Witness for C10: a response repeating id 1 on two lines against a
one-song sublibrary puts that song in the result twice. -/
theorem spec_c10_no_dedup_witness :
    ((recursiveSearch dupIdClient [sampleSong "1"] "q" 3 false).1.countP
        (fun s => s.id == "1")) =
      ((decodeAssistantResponse
          (dupIdClient (getBasicQuery [sampleSong "1"] "q" 3 false)).1 false).countP
        (fun p => p.1 == "1")) :=
  spec_c10_no_dedup dupIdClient [sampleSong "1"] "q" 3 false "1" (by decide)

/-- C2 (code-bug evidence): in the specification example scenario -- the
three-song library, a stub model answering
`<song_id>2</song_id><reason>lyric match</reason>`, `result_count` 1,
`chunk_size` 10 and reasoning generation requested -- `search_library`
does return exactly the song with id 2, but its `reasoning` is the empty
string instead of the tag text `lyric match`: both branches of
`decode_assistant_response` pair every id with `""` and never read the
`<reason>` tag. -/
theorem spec_c2_reason_tag_dropped :
    searchLibrary stubClient scenarioLibrary "hello darkness" 1 10 true =
      Except.ok ([{ sampleSong "2" with reasoning := PyVal.str "" }],
        { total_input_tokens := 0, total_output_tokens := 0, total_requests := 1,
          requests_breakdown :=
            [{ chunk_size := 3, input_tokens := 0, output_tokens := 0 }] }) ∧
    PyVal.str "" ≠ PyVal.str "lyric match" :=
  ⟨rfl, by decide⟩

/-- C4 (code-bug evidence): `search_library` on an empty items list raises
`ValueError` from `min([len(song.lyrics) for song in library])` before any
chunking happens, contradicting the zero-chunks-and-succeed policy; the
second half of the claim does hold: `recursive_search` on an empty
sublibrary builds the well-formed prompt and returns an empty result for
any model response, without error. -/
theorem spec_c4_empty_library_raises :
    searchLibrary strayIdClient [] "q" 3 1000 false =
      Except.error "ValueError: min() arg is an empty sequence" ∧
    (recursiveSearch strayIdClient [] "q" 3 false).1 = [] ∧
    pyStartsWith (getBasicQuery [] "q" 3 false)
      "\nHello, I am a music library assistant. I am here to help you find songs in my library.\n\nHere is the library:\n" = true :=
  ⟨rfl, rfl, by decide⟩

/-- Helper: under the non-empty-library and positive-chunk-size guards,
`search_library` returns the phase-1 concatenation, reduced once more only
when it exceeds `n`. -/
theorem searchLibrary_result (client : String → String × TU) (items : List Song)
    (user_query : String) (n chunk_size : Nat) (generate_song_reasoning : Bool)
    (hne : items.isEmpty = false) (hc : ¬ chunk_size = 0) :
    ∃ u, searchLibrary client items user_query n chunk_size generate_song_reasoning =
      Except.ok
        ((if n < (((pyChunks items chunk_size).map
              (fun ch => (recursiveSearch client ch user_query n generate_song_reasoning).1)).flatten).length
          then (recursiveSearch client
              (((pyChunks items chunk_size).map
                (fun ch => (recursiveSearch client ch user_query n generate_song_reasoning).1)).flatten)
              user_query n false).1
          else ((pyChunks items chunk_size).map
              (fun ch => (recursiveSearch client ch user_query n generate_song_reasoning).1)).flatten), u) := by
  have hfold := searchChunkStep_foldl_fst client user_query n generate_song_reasoning
    (pyChunks items chunk_size) ([], ⟨0, 0, 0, []⟩)
  rw [List.nil_append] at hfold
  unfold searchLibrary
  rw [hne]
  simp only [Bool.false_eq_true, if_false, hc]
  rw [hfold]
  by_cases hlen : n < (((pyChunks items chunk_size).map
      (fun ch => (recursiveSearch client ch user_query n generate_song_reasoning).1)).flatten).length
  · rw [if_pos hlen, if_pos hlen]
    exact ⟨_, rfl⟩
  · rw [if_neg hlen, if_neg hlen]
    exact ⟨_, rfl⟩

/-- C3: for every non-empty items list, positive chunk size and
`result_count n ≥ 1`, if every `recursive_search` invocation returns at
most `n` items, then `search` returns at most `n` items; moreover the
result is exactly the phase-1 concatenation when it fits in `n`, and one
final reduction pass over that concatenation otherwise.  (An empty items
list instead raises, see C4.) -/
theorem spec_c3_result_count_bound (client : String → String × TU) (items : List Song)
    (user_query : String) (n chunk_size : Nat) (generate_song_reasoning : Bool)
    (hne : items ≠ []) (hc : 0 < chunk_size) (hn : 1 ≤ n)
    (H : ∀ (sub : List Song) (g : Bool),
      ((recursiveSearch client sub user_query n g).1).length ≤ n) :
    ∃ r u, searchLibrary client items user_query n chunk_size generate_song_reasoning =
        Except.ok (r, u) ∧
      r.length ≤ n ∧
      r = (if n < (((pyChunks items chunk_size).map
              (fun ch => (recursiveSearch client ch user_query n generate_song_reasoning).1)).flatten).length
           then (recursiveSearch client
              (((pyChunks items chunk_size).map
                (fun ch => (recursiveSearch client ch user_query n generate_song_reasoning).1)).flatten)
              user_query n false).1
           else ((pyChunks items chunk_size).map
              (fun ch => (recursiveSearch client ch user_query n generate_song_reasoning).1)).flatten) := by
  have hempty : items.isEmpty = false := by
    cases items with
    | nil => exact absurd rfl hne
    | cons a t => rfl
  obtain ⟨u, hu⟩ := searchLibrary_result client items user_query n chunk_size
    generate_song_reasoning hempty (by omega)
  refine ⟨_, u, hu, ?_, rfl⟩
  by_cases hlen : n < (((pyChunks items chunk_size).map
      (fun ch => (recursiveSearch client ch user_query n generate_song_reasoning).1)).flatten).length
  · rw [if_pos hlen]
    exact H _ false
  · rw [if_neg hlen]
    omega

/-- Witness for C3: a client that always answers with the empty response
returns no songs from every `recursive_search` call, so the bound holds at
the concrete scenario library. -/
theorem spec_c3_result_count_bound_witness :
    ∃ r u, searchLibrary emptyRespClient scenarioLibrary "q" 1 2 false =
        Except.ok (r, u) ∧
      r.length ≤ 1 ∧
      r = (if 1 < (((pyChunks scenarioLibrary 2).map
              (fun ch => (recursiveSearch emptyRespClient ch "q" 1 false).1)).flatten).length
           then (recursiveSearch emptyRespClient
              (((pyChunks scenarioLibrary 2).map
                (fun ch => (recursiveSearch emptyRespClient ch "q" 1 false).1)).flatten)
              "q" 1 false).1
           else ((pyChunks scenarioLibrary 2).map
              (fun ch => (recursiveSearch emptyRespClient ch "q" 1 false).1)).flatten) :=
  spec_c3_result_count_bound emptyRespClient scenarioLibrary "q" 1 2 false
    (by decide) (by decide) (by decide)
    (fun sub g => by rw [recursiveSearch_emptyRespClient]; exact Nat.zero_le 1)

/-- C5 (counterexample): with a working embedding stage (7 prompt tokens)
and a store whose nearest-neighbour query raises, `vector_search_library`
does NOT surface a hard failure: it returns a normal `Except.ok` empty
result, with the error only recorded as a string inside the usage dict. -/
theorem spec_c5_counterexample_store_failure_swallowed :
    vectorSearchLibrary (some ()) (fun _ => Except.ok ([], 7, 9))
        (fun _ _ _ _ => Except.error "store down")
        (fun _ _ => Except.ok ([], UsageDict.zero)) "u1" "q" 5 0.5 false =
      Except.ok ([], { total_input_tokens := 7, total_output_tokens := 0,
                       total_requests := 1, error := some "store down" }) := rfl

/-- C5 (amended): whenever the store query fails (including after a failed
embedding step, which itself degrades to an empty query vector rather than
raising), `vector_search_library` catches the failure and returns a normal
empty result whose usage preserves the embedding-stage token counts and
records the error message; only missing store configuration raises. -/
theorem spec_c5_amended_failures_swallowed
    (embed_client : String → Except String (List Float × Nat × Nat))
    (store : List Float → String → Float → Nat → Except String (List DbRecord))
    (reasoning_step : List Song → List (Option Float) → Except String (List Song × UsageDict))
    (user_id user_query : String) (n : Nat) (match_threshold : Float)
    (generate_song_reasoning : Bool) (e : String)
    (hstore : store (createQueryEmbedding embed_client user_query).1 user_id
        match_threshold n = Except.error e) :
    vectorSearchLibrary (some ()) embed_client store reasoning_step user_id user_query
        n match_threshold generate_song_reasoning =
      Except.ok ([],
        { total_input_tokens := (createQueryEmbedding embed_client user_query).2.input_tokens,
          total_output_tokens := (createQueryEmbedding embed_client user_query).2.output_tokens,
          total_requests := 1,
          error := some e }) := by
  unfold vectorSearchLibrary
  simp only [hstore, bind, Except.bind]

/-- Witness for C5's amended theorem at a concrete failing store. -/
theorem spec_c5_amended_failures_swallowed_witness :
    vectorSearchLibrary (some ()) (fun _ => Except.ok ([], 2, 3))
        (fun _ _ _ _ => Except.error "down")
        (fun _ _ => Except.ok ([], UsageDict.zero)) "u2" "w" 3 0.9 true =
      Except.ok ([],
        { total_input_tokens :=
            (createQueryEmbedding (fun _ => Except.ok ([], 2, 3)) "w").2.input_tokens,
          total_output_tokens :=
            (createQueryEmbedding (fun _ => Except.ok ([], 2, 3)) "w").2.output_tokens,
          total_requests := 1,
          error := some "down" }) :=
  spec_c5_amended_failures_swallowed (fun _ => Except.ok ([], 2, 3))
    (fun _ _ _ _ => Except.error "down") (fun _ _ => Except.ok ([], UsageDict.zero))
    "u2" "w" 3 0.9 true "down" rfl

/-- C6 (code-bug evidence): for a model response saying the song should be
filtered out, `decode_individual_song_reasoning` does return the decision
`(True, "")`, but `generate_individual_song_reasoning` neither marks nor
drops the song -- it returns the song with the whole tuple assigned to its
`reasoning` slot, so the filter-out decision is never applied and the
reasoning is not a sentence string. -/
theorem spec_c6_filter_decision_ignored :
    decodeIndividualSongReasoning "<filter_out>true</filter_out>" =
      Except.ok (true, "") ∧
    generateIndividualSongReasoning
        (fun _ => Except.ok ("<filter_out>true</filter_out>", ⟨5, 3⟩)) (fun _ => "")
        (sampleSong "9") "patti" none =
      ({ sampleSong "9" with reasoning := PyVal.pair true "" },
       { input_tokens := 5, output_tokens := 3, total_tokens := 8 }) :=
  ⟨rfl, rfl⟩

/-- C7 (code-bug evidence): the `Song` dataclass has no `embedding` field,
so every constructor call that passes `embedding=` raises `TypeError`:
`enrich_single_song` fails even when all three sub-steps succeed, and the
store-row conversion of `vector_search_library` fails on every returned
record -- no item ever carries an embedding. -/
theorem spec_c7_no_embedding_field :
    checkSongKwargs ["id", "song_link", "album", "name", "artists", "lyrics",
        "song_metadata", "embedding"] =
      Except.error "TypeError: Song.__init__() got an unexpected keyword argument \x27embedding\x27" ∧
    enrichSingleSong okLyrics okMetadata okEmbedding sampleRaw =
      Except.error "TypeError: Song.__init__() got an unexpected keyword argument \x27embedding\x27" ∧
    buildSongsFromRecords [sampleRecord] =
      Except.error "TypeError: Song.__init__() got an unexpected keyword argument \x27embedding\x27" :=
  ⟨rfl, rfl, rfl⟩

/-- Helper: the enrichment loop yields exactly the per-item `yieldedSong`
values, in order, whatever the running totals are. -/
theorem enrichSongsGo_map_fst (get_lyrics : RawSong → Except String String)
    (get_song_metadata : RawSong → Except String (String × TU))
    (embed_client : String → Except String (List Float)) :
    ∀ (songs : List RawSong) (t : EnrichTotals),
      (enrichSongsGo get_lyrics get_song_metadata embed_client songs t).map
          (fun p => p.1) =
        songs.map (yieldedSong get_lyrics get_song_metadata embed_client)
  | [], _ => rfl
  | s :: rest, t => by
    unfold enrichSongsGo
    cases h : enrichSingleSong get_lyrics get_song_metadata embed_client s with
    | ok pr =>
      rw [List.map_cons, List.map_cons,
        enrichSongsGo_map_fst get_lyrics get_song_metadata embed_client rest _]
      have hy : yieldedSong get_lyrics get_song_metadata embed_client s = pr.1 := by
        unfold yieldedSong
        rw [h]
      rw [hy]
    | error e =>
      rw [List.map_cons, List.map_cons,
        enrichSongsGo_map_fst get_lyrics get_song_metadata embed_client rest _]
      have hy : yieldedSong get_lyrics get_song_metadata embed_client s =
          { id := s.id, song_link := s.song_link, album := s.album, name := s.name,
            artists := s.artists, lyrics := "", song_metadata := "" } := by
        unfold yieldedSong
        rw [h]
      rw [hy]

/-- C8: for every non-empty input list (and any behaviour of the three
enrichment sub-steps), `enrich_songs` yields exactly one pair per input
item and never raises (the embedding is total); an item whose enrichment
raised is still yielded, rebuilt with empty lyrics and metadata and its
original id; no item is dropped. -/
theorem spec_c8_enrich_never_drops (get_lyrics : RawSong → Except String String)
    (get_song_metadata : RawSong → Except String (String × TU))
    (embed_client : String → Except String (List Float))
    (songs : List RawSong) (hne : songs ≠ []) :
    (enrichSongs get_lyrics get_song_metadata embed_client songs).length = songs.length ∧
    (enrichSongs get_lyrics get_song_metadata embed_client songs).map (fun p => p.1) =
      songs.map (yieldedSong get_lyrics get_song_metadata embed_client) ∧
    (∀ (r : RawSong) (e : String),
      enrichSingleSong get_lyrics get_song_metadata embed_client r = Except.error e →
      (yieldedSong get_lyrics get_song_metadata embed_client r).id = r.id ∧
      (yieldedSong get_lyrics get_song_metadata embed_client r).lyrics = "" ∧
      (yieldedSong get_lyrics get_song_metadata embed_client r).song_metadata = "") := by
  have hempty : songs.isEmpty = false := by
    cases songs with
    | nil => exact absurd rfl hne
    | cons a t => rfl
  have hmap : (enrichSongs get_lyrics get_song_metadata embed_client songs).map
      (fun p => p.1) = songs.map (yieldedSong get_lyrics get_song_metadata embed_client) := by
    unfold enrichSongs
    rw [hempty]
    simp only [Bool.false_eq_true, if_false]
    exact enrichSongsGo_map_fst get_lyrics get_song_metadata embed_client songs _
  refine ⟨?_, hmap, ?_⟩
  · have := congrArg List.length hmap
    simpa using this
  · intro r e h
    unfold yieldedSong
    rw [h]
    exact ⟨rfl, rfl, rfl⟩

/-- Witness for C8: one item whose lyrics fetch raises is still yielded,
with empty lyrics and metadata. -/
theorem spec_c8_enrich_never_drops_witness :
    (enrichSongs failingLyrics okMetadata okEmbedding [sampleRaw]).length =
      [sampleRaw].length ∧
    (enrichSongs failingLyrics okMetadata okEmbedding [sampleRaw]).map (fun p => p.1) =
      [sampleRaw].map (yieldedSong failingLyrics okMetadata okEmbedding) ∧
    (∀ (r : RawSong) (e : String),
      enrichSingleSong failingLyrics okMetadata okEmbedding r = Except.error e →
      (yieldedSong failingLyrics okMetadata okEmbedding r).id = r.id ∧
      (yieldedSong failingLyrics okMetadata okEmbedding r).lyrics = "" ∧
      (yieldedSong failingLyrics okMetadata okEmbedding r).song_metadata = "") :=
  spec_c8_enrich_never_drops failingLyrics okMetadata okEmbedding [sampleRaw] (by decide)

end MusicFinder
